import Mathlib

/-!
Verification of the AgentArena client against its design specification.

The definitions below are a shallow embedding of the JavaScript/React client
sources (Submissions.jsx, AuthService.js, axiosInstance.js, the Agents,
CreateAgent, Leaderboard and PlaygroundHealthCheck pages).  JavaScript values
that matter to the claims are modelled by the inductive `JsVal`; component
handler functions become Lean functions from their inputs (HTTP responses,
component state, browser storage) to the state they produce; HTTP requests and
timers are recorded explicitly in the returned traces.
-/

namespace AgentArena

/-! ### A model of JavaScript values

Numbers are modelled as rationals and objects as association lists.  Member
access on a non-object yields `undefined`; the only place the client reads a
member of a possibly-null value, the surrounding try/catch keeps the previous
state, which agrees with the modelled outcome for every claim below. -/

inductive JsVal : Type where
  | null
  | undefined
  | bool (b : Bool)
  | num (q : ℚ)
  | str (s : String)
  | arr (elems : List JsVal)
  | obj (fields : List (String × JsVal))

/-- JavaScript truthiness: null, undefined, false, 0 and the empty string are
falsy; every other value (arrays and objects included) is truthy. -/
def jsTruthy : JsVal → Bool
  | .null => false
  | .undefined => false
  | .bool b => b
  | .num q => if q = 0 then false else true
  | .str s => if s = "" then false else true
  | .arr _ => true
  | .obj _ => true

/-- JavaScript `a || b`: the first operand if it is truthy, otherwise the
second. -/
def jsOr (a b : JsVal) : JsVal :=
  if jsTruthy a then a else b

/-- Nullish test, used by the `??` operator and optional chaining. -/
def jsNullish : JsVal → Bool
  | .null => true
  | .undefined => true
  | _ => false

/-- JavaScript `a ?? b`. -/
def jsCoalesce (a b : JsVal) : JsVal :=
  if jsNullish a then b else a

/-- Member access `v.k`; `undefined` when `v` is not an object or lacks the
field. -/
def jsGet (v : JsVal) (k : String) : JsVal :=
  match v with
  | .obj fields =>
    match fields.lookup k with
    | some w => w
    | none => .undefined
  | _ => .undefined

/-- Optional chaining `v?.k`. -/
def jsOptGet (v : JsVal) (k : String) : JsVal :=
  if jsNullish v then .undefined else jsGet v k

/-- `Array.isArray`. -/
def isArray : JsVal → Bool
  | .arr _ => true
  | _ => false

/-! ### Agent list fetching (claim C10)

Three components fetch `GET /agents` and hold an `agents` state. -/

/-- `Agents.fetchAgents` (Agents page): `const fetched = response.data?.items
?? []; if (Array.isArray(fetched)) setAgents(fetched); else setAgents([])`. -/
def agentsStateAfterFetch (data : JsVal) : JsVal :=
  let fetched := jsCoalesce (jsOptGet data ("items")) (.arr [])
  if isArray fetched then fetched else .arr []

/-- `DisplayAgents.fetchAgents` (Submissions.jsx): `if (Array.isArray(data))
setAgents(data); else if (data?.items && Array.isArray(data.items))
setAgents(data.items); else setAgents([])`. -/
def displayAgentsStateAfterFetch (data : JsVal) : JsVal :=
  if isArray data then data
  else
    let items := jsOptGet data ("items")
    if jsTruthy items && isArray items then items
    else .arr []

/-- `Playground.fetchData` (Submissions.jsx line 923): `const agentsData =
agentsResponse.data.agents || agentsResponse.data.items || [];
setAgents(agentsData)` - no array check. -/
def playgroundAgentsData (data : JsVal) : JsVal :=
  jsOr (jsGet data ("agents")) (jsOr (jsGet data ("items")) (.arr []))

/-! ### Health probe handling (claims C1 and C5) -/

/-- The mock-mode flag derived by `Playground.fetchData` (Submissions.jsx line
929): `mockMode: healthResponse.data.mock_mode || true`. -/
def playgroundDerivedMockMode (health : JsVal) : JsVal :=
  jsOr (jsGet health ("mock_mode")) (.bool true)

/-- The supported-providers list derived by `Playground.fetchData`
(Submissions.jsx line 930): `supportedProviders:
healthResponse.data.supported_providers || []`. -/
def playgroundDerivedProviders (health : JsVal) : JsVal :=
  jsOr (jsGet health ("supported_providers")) (.arr [])

/-- The API-key gate of `Playground.runBenchmark` (Submissions.jsx line 979):
`selectedAgent.configType === "real" && !healthStatus.mockMode && !llmApiKey`
decides whether the API-key modal must be shown before the run. -/
def needsApiKey (configType : String) (mockMode : JsVal) (llmApiKey : String) : Bool :=
  (configType = "real" : Bool) && !(jsTruthy mockMode) && !(jsTruthy (.str llmApiKey))

/-- State of the `PlaygroundHealthCheck` component.  Fields keep their
JavaScript values; a field absent from the object passed to `setHealthStatus`
is `undefined`. -/
structure PlaygroundHealthState where
  isLLMServiceReady : JsVal
  isEvaluationServiceReady : JsVal
  playgroundStatus : JsVal
  playgroundVersion : JsVal
  mockMode : JsVal
  isCheckingStatus : JsVal
  supportedProviders : JsVal
  supportedEnvironments : JsVal

/-- Outcome of one HTTP probe: the parsed response body, or a request error. -/
def ProbeOutcome : Type := Except String JsVal

/-- `PlaygroundHealthCheck.checkPlaygroundHealth`: on success the state is
derived from the response body; on a thrown request error the catch block
installs the unhealthy defaults (services not ready, status "error", mock mode
on, checking finished) and the function returns normally.  The second
component lists the HTTP requests issued: always exactly the one probe. -/
def phcCheckPlaygroundHealth (probe : ProbeOutcome) :
    PlaygroundHealthState × List String :=
  match probe with
  | .ok data =>
    (⟨jsOr (jsGet data ("llm_service")) (.bool false),
      jsOr (jsGet data ("evaluation_service")) (.bool false),
      jsOr (jsGet data ("status")) (.str "unknown"),
      jsOr (jsGet data ("playground_version")) (.str "1.0.0"),
      jsOr (jsGet data ("mock_mode")) (.bool false),
      .bool false,
      jsOr (jsGet data ("supported_providers")) (.arr []),
      jsOr (jsGet data ("supported_environments")) (.arr [])⟩,
     ["GET /playground/health"])
  | .error _ =>
    (⟨.bool false, .bool false, .str "error", .undefined, .bool true,
      .bool false, .undefined, .undefined⟩,
     ["GET /playground/health"])

/-- `CreateAgent.checkPlaygroundHealth`: on success sets
`supportedProviders = data.supported_providers || []` and
`mockMode = data.mock_mode || true`; on a thrown request error the catch block
sets `supportedProviders = []` and `mockMode = true` and returns normally. -/
def createAgentCheckPlaygroundHealth (probe : ProbeOutcome) :
    (JsVal × JsVal) × List String :=
  match probe with
  | .ok data =>
    ((jsOr (jsGet data ("supported_providers")) (.arr []),
      jsOr (jsGet data ("mock_mode")) (.bool true)),
     ["GET /playground/health"])
  | .error _ =>
    ((.arr [], .bool true), ["GET /playground/health"])

/-! ### Accuracy rendering (claim C7) -/

/-- JavaScript `x.toFixed(1)` on a non-negative number, as the rational it
displays: `x` rounded to the nearest tenth. -/
def toFixed1 (x : ℚ) : ℚ :=
  (round (10 * x) : ℚ) / 10

/-- `Leaderboard.getAccuracyBar`: `const percentage = accuracy * 100` is used
as the progress-bar width (`width: percentage%`). -/
def accuracyBarWidth (accuracy : ℚ) : ℚ :=
  accuracy * 100

/-- The accuracy cell of `TaskLeaderboard` (Submissions.jsx line 684):
`(entry.accuracy * 100).toFixed(1)`. -/
def leaderboardAccuracyCell (accuracy : ℚ) : ℚ :=
  toFixed1 (accuracy * 100)

/-! ### Caller-side run polling (claims C3, C4, C8)

`Playground.pollSubmissionStatus` (Submissions.jsx lines 1016-1048) polls
`GET /submissions/{id}` until the status is "completed" or "failed", with a
fixed 2000 ms timer between polls and a cap of 30 attempts. -/

/-- A polled submission record; only the fields the loop inspects are kept. -/
structure Submission where
  id : String
  status : String
deriving DecidableEq

/-- Outcome of one `GET /submissions/{id}` poll: the response body, or a
thrown request error. -/
inductive PollResp where
  | ok (submission : Submission)
  | httpErr
deriving DecidableEq

/-- `maxAttempts` in `pollSubmissionStatus`. -/
def maxPollAttempts : Nat := 30

/-- What one run of the polling loop did: the submissions delivered through
`setResult`, the final value of the `isRunning` flag, the number of polls
issued, and the `setTimeout` delays scheduled (in ms). -/
structure PollTrace where
  delivered : List Submission
  isRunning : Bool
  polls : Nat
  delays : List Nat
deriving DecidableEq

/-- The inner `checkStatus` closure of `pollSubmissionStatus`, as a function
of the poll-response stream and the current `attempts` counter: if the counter
reached `maxAttempts`, stop with `setIsRunning(false)` and no result; on a
request error, stop with `setIsRunning(false)`; on status "completed" or
"failed", deliver the submission once via `setResult` and stop; otherwise
increment the counter and re-poll after a 2000 ms timer. -/
def checkStatus (resp : Nat → PollResp) (attempts : Nat) : PollTrace :=
  if h : attempts ≥ maxPollAttempts then
    ⟨[], false, 0, []⟩
  else
    match resp attempts with
    | .httpErr => ⟨[], false, 1, []⟩
    | .ok sub =>
      if sub.status = "completed" ∨ sub.status = "failed" then
        ⟨[sub], false, 1, []⟩
      else
        let t := checkStatus resp (attempts + 1)
        ⟨t.delivered, t.isRunning, t.polls + 1, 2000 :: t.delays⟩
termination_by maxPollAttempts - attempts
decreasing_by
  simp only [maxPollAttempts] at *
  omega

/-- `pollSubmissionStatus`: schedules the first `checkStatus` after an initial
2000 ms timer and starts the attempts counter at 0. -/
def pollSubmissionStatus (resp : Nat → PollResp) : PollTrace :=
  let t := checkStatus resp 0
  ⟨t.delivered, t.isRunning, t.polls, 2000 :: t.delays⟩

/-! `useFetchSubmissions` (AuthService.js lines 60-93) re-fetches the
submission list of a task, doubling its delay (`delay *= 2` from an initial
1000) and stopping after `maxLimit = 5` attempts or as soon as every fetched
submission has status "FAILED" or "COMPLETED". -/

/-- `maxLimit` in `useFetchSubmissions`. -/
def maxFetchLimit : Nat := 5

/-- What the `pollSubmissions` loop did: number of fetches issued and the
`setTimeout` delays scheduled. -/
structure FetchTrace where
  fetches : Nat
  delays : List Nat
deriving DecidableEq

/-- The termination test of `useFetchSubmissions`:
`[].concat(updatedSubmissions).every(sub => sub.status === "FAILED" ||
sub.status === "COMPLETED")`. -/
def allCompleted (subs : List Submission) : Bool :=
  subs.all (fun sub => (sub.status = "FAILED" : Bool) || (sub.status = "COMPLETED" : Bool))

/-- The `pollSubmissions` closure of `useFetchSubmissions`, as a function of
the per-attempt fetched lists, the `attempt` counter and the current `delay`:
stop once `attempt` reaches `maxLimit`; otherwise fetch, stop if every fetched
submission is terminal, else increment `attempt`, double `delay` and re-poll
after the doubled delay. -/
def pollSubmissions (subs : Nat → List Submission) (attempt : Nat) (delay : Nat) :
    FetchTrace :=
  if h : attempt ≥ maxFetchLimit then
    ⟨0, []⟩
  else
    if allCompleted (subs attempt) then ⟨1, []⟩
    else
      let t := pollSubmissions subs (attempt + 1) (delay * 2)
      ⟨t.fetches + 1, delay * 2 :: t.delays⟩
termination_by maxFetchLimit - attempt
decreasing_by
  simp only [maxFetchLimit] at *
  omega

/-- Entry point of the `useFetchSubmissions` effect: `delay = 1000`,
`attempt = 0`, then `pollSubmissions()` runs immediately. -/
def useFetchSubmissionsPolling (subs : Nat → List Submission) : FetchTrace :=
  pollSubmissions subs 0 1000

/-! ### Browser storage (claims C2 and C9)

`sessionStorage` and `localStorage` are modelled as association lists of
string keys and values. -/

/-- A web Storage object. -/
abbrev Store : Type := List (String × String)

/-- `storage.getItem(k)`: the value stored under `k`, when any. -/
def getItem (st : Store) (k : String) : Option String :=
  match st with
  | [] => none
  | kv :: tl => if kv.1 = k then some kv.2 else getItem tl k

/-- `storage.removeItem(k)`: drop every entry stored under `k`. -/
def removeItem (st : Store) (k : String) : Store :=
  match st with
  | [] => []
  | kv :: tl => if kv.1 = k then removeItem tl k else kv :: removeItem tl k

/-- `storage.setItem(k, v)`. -/
def setItem (st : Store) (k v : String) : Store :=
  (k, v) :: removeItem st k

/-- The two browser storages. -/
structure BrowserState where
  sessionStorage : Store
  localStorage : Store

/-! ### Running a benchmark (claims C2 and C8)

`Playground.runBenchmark` (Submissions.jsx lines 967-1014) posts the run
request; `Playground.handleApiKeySubmit` (lines 951-965) stores the entered
API key in sessionStorage and then calls `runBenchmark`. -/

/-- The selected agent; only the fields the handlers read are kept. -/
structure Agent where
  id : String
  configType : String
deriving DecidableEq

/-- The selected task. -/
structure Task where
  id : String
deriving DecidableEq

/-- The `run_config` object of the benchmark request body. -/
structure RunConfig where
  llm_api_key : String
deriving DecidableEq

/-- The body of `POST /submissions` built by `runBenchmark` (lines 988-994):
`{ agent_id, task_id, run_config: { llm_api_key } }` - the credential appears
only in `run_config.llm_api_key`. -/
structure BenchmarkBody where
  agent_id : String
  task_id : String
  run_config : RunConfig
deriving DecidableEq

/-- Outcome of the `POST /submissions` request: the created submission
(`response.data`), or a thrown request error. -/
inductive PostResp where
  | ok (submission : Submission)
  | httpErr
deriving DecidableEq

/-- What `runBenchmark` did: the run-request bodies posted, the final value of
the `isRunning` flag, and whether the API-key modal was opened instead of
running. -/
structure RunState where
  posted : List BenchmarkBody
  isRunning : Bool
  showApiKeyModal : Bool
deriving DecidableEq

/-- `Playground.runBenchmark`: guard on a selected agent and task; show the
API-key modal and return when a real agent needs a key; otherwise set
`isRunning` to true, post the benchmark body, and either poll (status
"pending" or "processing"), leave `isRunning` as the polling loop left it, or,
on any other successful response status, schedule no polling; a request error
is caught and sets `isRunning` to false.  The `isRunning` flag starts false
and the early-return paths never set it. -/
def runBenchmark (selectedAgent : Option Agent) (selectedTask : Option Task)
    (mockMode : JsVal) (llmApiKey : String)
    (post : BenchmarkBody → PostResp) (resp : Nat → PollResp) : RunState :=
  match selectedAgent, selectedTask with
  | none, _ => ⟨[], false, false⟩
  | some _, none => ⟨[], false, false⟩
  | some agent, some task =>
    if needsApiKey agent.configType mockMode llmApiKey then
      ⟨[], false, true⟩
    else
      let body : BenchmarkBody := ⟨agent.id, task.id, ⟨llmApiKey⟩⟩
      match post body with
      | .httpErr => ⟨[body], false, false⟩
      | .ok sub =>
        if sub.status = "pending" ∨ sub.status = "processing" then
          let t := pollSubmissionStatus resp
          ⟨[body], t.isRunning, false⟩
        else
          ⟨[body], true, false⟩

/-- Whitespace trimming on the character list of a string. -/
def trimChars (cs : List Char) : List Char :=
  ((cs.dropWhile Char.isWhitespace).reverse.dropWhile Char.isWhitespace).reverse

/-- JavaScript `s.trim()`. -/
def jsTrim (s : String) : String :=
  String.mk (trimChars s.data)

/-- `Playground.handleApiKeySubmit`: reject a blank key; otherwise store the
key in sessionStorage under `llm_api_key_` + the selected agent id, close the
modal, and call `runBenchmark`.  localStorage is untouched. -/
def handleApiKeySubmit (llmApiKey : String) (selectedAgent : Option Agent)
    (selectedTask : Option Task) (mockMode : JsVal) (browser : BrowserState)
    (post : BenchmarkBody → PostResp) (resp : Nat → PollResp) :
    BrowserState × RunState :=
  if jsTrim llmApiKey = "" then
    (browser, ⟨[], false, false⟩)
  else
    let browser2 :=
      match selectedAgent with
      | some agent =>
        { browser with
          sessionStorage :=
            setItem browser.sessionStorage (String.append ("llm_api_key_") agent.id) llmApiKey }
      | none => browser
    (browser2, runBenchmark selectedAgent selectedTask mockMode llmApiKey post resp)

/-- `CreateAgent.onFormSubmit` (credential part): after a successful
`POST /agents` returning the new agent id, if an API key was entered and the
config type is "real", the key is stored in sessionStorage under
`llm_api_key_` + the new agent id; on a request error nothing is stored. -/
def onFormSubmitStoredKey (llmApiKey : String) (configType : String)
    (agentPost : Except Unit String) (browser : BrowserState) : BrowserState :=
  match agentPost with
  | .ok newId =>
    if llmApiKey ≠ "" ∧ configType = "real" then
      { browser with
        sessionStorage :=
          setItem browser.sessionStorage (String.append ("llm_api_key_") newId) llmApiKey }
    else browser
  | .error _ => browser

/-! ### The axios response interceptor (claim C9)

`axiosInstance.js` lines 26-66: on a 401 response whose request config does
not carry the `_retry` flag, set `_retry`, refresh the token and retry the
original request once; when the refresh fails (or no refresh token is stored)
clear the auth keys from localStorage, redirect to /login and reject with the
refresh error.  Every other error is rejected unchanged. -/

/-- The request config fields the interceptor touches. -/
structure RequestConfig where
  retryFlag : Bool
  authHeader : Option String
deriving DecidableEq

/-- The failed response seen by the interceptor: the HTTP status (if a
response arrived) and the originating request config. -/
structure HttpError where
  status : Option Nat
  config : RequestConfig
deriving DecidableEq

/-- Outcome of `POST /auth/refresh`. -/
inductive RefreshOutcome where
  | ok (newAccessToken : String)
  | refreshFailed
deriving DecidableEq

/-- What the interceptor resolves to. -/
inductive InterceptorAction where
  | retryOriginal (config : RequestConfig)
  | rejectOriginal
  | rejectRefreshError
deriving DecidableEq

/-- Result of running the response interceptor on a failed response. -/
structure InterceptorResult where
  action : InterceptorAction
  localStorage : Store
  redirect : Option String
deriving DecidableEq

/-- `localStorage.removeItem` of the four auth keys, as done in the refresh
catch block. -/
def clearAuthKeys (ls : Store) : Store :=
  removeItem (removeItem (removeItem (removeItem ls ("access_token")) ("refresh_token")) ("role")) ("username")

/-- The axios response-error interceptor. -/
def responseInterceptorOnError (err : HttpError) (ls : Store)
    (refresh : String → RefreshOutcome) : InterceptorResult :=
  if err.status = some 401 ∧ err.config.retryFlag = false then
    let orig : RequestConfig := { err.config with retryFlag := true }
    match getItem ls ("refresh_token") with
    | none => ⟨.rejectRefreshError, clearAuthKeys ls, some "/login"⟩
    | some rt =>
      match refresh rt with
      | .ok tok =>
        ⟨.retryOriginal { orig with authHeader := some (String.append ("Bearer ") tok) },
         setItem ls ("access_token") tok, none⟩
      | .refreshFailed => ⟨.rejectRefreshError, clearAuthKeys ls, some "/login"⟩
  else
    ⟨.rejectOriginal, ls, none⟩

/-! ### The run orchestrator step loop (claim C6)

Modelled from the spec: the backend Run Orchestrator is not among the client
sources, so its step loop is taken from the design (spec sections 4.2, 4.5 and
the tie-break policy): each iteration observes, decides, acts and then runs
the Completion Evaluator over the updated history; a success verdict exits to
Completing, a failure verdict to Failing, and the loop re-enters only while
the step budget is not exhausted, with success taking precedence when both
arrive on the same iteration. -/

/-- The Completion Evaluator verdict (spec section 4.5). -/
inductive Verdict where
  | next
  | success
  | failure
deriving DecidableEq

/-- Terminal run status (spec section 3, RunOutcome). -/
inductive RunStatus where
  | completed
  | failed
  | timed_out
  | cancelled
deriving DecidableEq

/-- The terminal run outcome (spec section 3); `steps_taken` is the final
step index. -/
structure RunOutcome where
  status : RunStatus
  matched : Bool
  steps_taken : Nat
deriving DecidableEq

/-- Modelled from the spec: one pass of the Run Orchestrator loop starting at
step index `i`.  `verdict i` is the Completion Evaluator verdict after the
step record of iteration `i` is appended.  Success exits with status
completed even when the step budget is exhausted on the same iteration (the
tie-break of spec section 4.2); only a `next` verdict consults the budget. -/
def runLoop (verdict : Nat → Verdict) (stepBudget : Nat) (i : Nat) : RunOutcome :=
  match verdict i with
  | .success => ⟨.completed, true, i + 1⟩
  | .failure => ⟨.failed, false, i + 1⟩
  | .next =>
    if h : i + 1 ≥ stepBudget then ⟨.timed_out, false, i + 1⟩
    else runLoop verdict stepBudget (i + 1)
termination_by stepBudget - i

/-- Modelled from the spec: a whole run starts the loop at step index 0. -/
def runOrchestrator (verdict : Nat → Verdict) (stepBudget : Nat) : RunOutcome :=
  runLoop verdict stepBudget 0

/-! ### Helper lemmas -/

/-- `x || true` is truthy for every JavaScript value `x`. -/
theorem jsTruthy_jsOr_true (x : JsVal) : jsTruthy (jsOr x (.bool true)) = true := by
  unfold jsOr
  split
  · assumption
  · rfl

/-- The polling loop always leaves the `isRunning` flag false: every exit
(attempt exhaustion, request error, terminal status) calls
`setIsRunning(false)`. -/
theorem checkStatus_isRunning (resp : Nat → PollResp) (attempts : Nat) :
    (checkStatus resp attempts).isRunning = false := by
  induction attempts using checkStatus.induct resp with
  | case1 a h => rw [checkStatus]; simp [h]
  | case2 a h heq => rw [checkStatus]; simp [h, heq]
  | case3 a h sub heq hterm => rw [checkStatus]; simp [h, heq, hterm]
  | case4 a h sub heq hterm ih => rw [checkStatus]; simp [h, heq, hterm, ih]

/-- The polling loop calls `setResult` at most once. -/
theorem checkStatus_delivered_length (resp : Nat → PollResp) (attempts : Nat) :
    (checkStatus resp attempts).delivered.length ≤ 1 := by
  induction attempts using checkStatus.induct resp with
  | case1 a h => rw [checkStatus]; simp [h]
  | case2 a h heq => rw [checkStatus]; simp [h, heq]
  | case3 a h sub heq hterm => rw [checkStatus]; simp [h, heq, hterm]
  | case4 a h sub heq hterm ih => rw [checkStatus]; simp [h, heq, hterm, ih]

/-- Every submission the polling loop delivers has status "completed" or
"failed". -/
theorem checkStatus_delivered_status (resp : Nat → PollResp) (attempts : Nat) :
    ∀ sub ∈ (checkStatus resp attempts).delivered,
      sub.status = "completed" ∨ sub.status = "failed" := by
  induction attempts using checkStatus.induct resp with
  | case1 a h => rw [checkStatus]; simp [h]
  | case2 a h heq => rw [checkStatus]; simp [h, heq]
  | case3 a h sub heq hterm =>
    rw [checkStatus]; simp [h, heq, hterm]
  | case4 a h sub heq hterm ih =>
    rw [checkStatus]; simp [h, heq, hterm]; exact ih

/-- The polling loop issues at most `maxPollAttempts - attempts` requests. -/
theorem checkStatus_polls_le (resp : Nat → PollResp) (attempts : Nat) :
    (checkStatus resp attempts).polls ≤ maxPollAttempts - attempts := by
  induction attempts using checkStatus.induct resp with
  | case1 a h => rw [checkStatus]; simp [h]
  | case2 a h heq => rw [checkStatus]; simp [h, heq]; omega
  | case3 a h sub heq hterm => rw [checkStatus]; simp [h, heq, hterm]; omega
  | case4 a h sub heq hterm ih => rw [checkStatus]; simp [h, heq, hterm]; omega

/-- Every timer the polling loop schedules is the fixed 2000 ms delay. -/
theorem checkStatus_delays_const (resp : Nat → PollResp) (attempts : Nat) :
    ∀ d ∈ (checkStatus resp attempts).delays, d = 2000 := by
  induction attempts using checkStatus.induct resp with
  | case1 a h => rw [checkStatus]; simp [h]
  | case2 a h heq => rw [checkStatus]; simp [h, heq]
  | case3 a h sub heq hterm => rw [checkStatus]; simp [h, heq, hterm]
  | case4 a h sub heq hterm ih =>
    rw [checkStatus]; simp [h, heq, hterm]; exact ih

/-- As soon as a poll within the attempt budget returns status "completed" or
"failed", the loop delivers that submission once and stops. -/
theorem checkStatus_stop_terminal (resp : Nat → PollResp) (attempts : Nat)
    (sub : Submission) (h1 : attempts < maxPollAttempts)
    (h2 : resp attempts = PollResp.ok sub)
    (h3 : sub.status = "completed" ∨ sub.status = "failed") :
    checkStatus resp attempts = ⟨[sub], false, 1, []⟩ := by
  rw [checkStatus]
  have h4 : ¬ attempts ≥ maxPollAttempts := by omega
  simp [h4, h2, h3]

/-- If the polled status is never "completed" or "failed", the loop delivers
nothing. -/
theorem checkStatus_never_terminal (resp : Nat → PollResp) (attempts : Nat)
    (h : ∀ j, attempts ≤ j → ∀ s, resp j = PollResp.ok s →
      ¬(s.status = "completed" ∨ s.status = "failed")) :
    (checkStatus resp attempts).delivered = [] := by
  induction attempts using checkStatus.induct resp with
  | case1 a hge => rw [checkStatus]; simp [hge]
  | case2 a hge heq => rw [checkStatus]; simp [hge, heq]
  | case3 a hge sub heq hterm =>
    exact absurd hterm (h a le_rfl sub heq)
  | case4 a hge sub heq hterm ih =>
    rw [checkStatus]; simp [hge, heq, hterm]
    exact ih (fun j hj s hs => h j (by omega) s hs)

/-- If every poll before index `k` returns a non-terminal submission and the
poll at `k` (inside the attempt budget) returns a terminal one, the loop
delivers exactly that submission. -/
theorem checkStatus_first_terminal (resp : Nat → PollResp) (k : Nat)
    (sub : Submission) (hk : k < maxPollAttempts)
    (hresp : resp k = PollResp.ok sub)
    (hterm : sub.status = "completed" ∨ sub.status = "failed") :
    ∀ attempts, attempts ≤ k →
      (∀ j, attempts ≤ j → j < k →
        ∃ s, resp j = PollResp.ok s ∧
          ¬(s.status = "completed" ∨ s.status = "failed")) →
      (checkStatus resp attempts).delivered = [sub] := by
  intro attempts
  induction attempts using checkStatus.induct resp with
  | case1 a hge =>
    intro hak _
    exact absurd hk (by omega)
  | case2 a hge heq =>
    intro hak hbefore
    rcases Nat.lt_or_ge a k with hlt | hge2
    · obtain ⟨s, hs, _⟩ := hbefore a le_rfl hlt
      rw [heq] at hs; cases hs
    · have hek : a = k := le_antisymm hak hge2
      subst hek
      rw [heq] at hresp; cases hresp
  | case3 a hge sub2 heq hterm2 =>
    intro hak hbefore
    rcases Nat.lt_or_ge a k with hlt | hge2
    · obtain ⟨s, hs, hns⟩ := hbefore a le_rfl hlt
      rw [heq] at hs
      cases hs
      exact absurd hterm2 hns
    · have hek : a = k := le_antisymm hak hge2
      subst hek
      rw [heq] at hresp
      cases hresp
      rw [checkStatus]; simp [hge, heq, hterm2]
  | case4 a hge sub2 heq hterm2 ih =>
    intro hak hbefore
    have hne : a ≠ k := by
      intro hek
      subst hek
      rw [heq] at hresp
      cases hresp
      exact hterm2 hterm
    have hlt : a < k := lt_of_le_of_ne hak hne
    rw [checkStatus]; simp [hge, heq, hterm2]
    exact ih (by omega) (fun j hj hjk => hbefore j (by omega) hjk)

/-- The submission-list polling hook issues at most
`maxFetchLimit - attempt` fetches. -/
theorem pollSubmissions_fetches_le (subs : Nat → List Submission)
    (attempt delay : Nat) :
    (pollSubmissions subs attempt delay).fetches ≤ maxFetchLimit - attempt := by
  induction attempt, delay using pollSubmissions.induct subs with
  | case1 a d h => rw [pollSubmissions]; simp [h]
  | case2 a d h hall => rw [pollSubmissions]; simp [h, hall]; omega
  | case3 a d h hall ih => rw [pollSubmissions]; simp [h, hall]; omega

/-- As soon as every fetched submission has status "FAILED" or "COMPLETED",
the hook stops after the current fetch, scheduling no further timer. -/
theorem pollSubmissions_stop (subs : Nat → List Submission) (attempt delay : Nat)
    (h1 : attempt < maxFetchLimit) (h2 : allCompleted (subs attempt) = true) :
    pollSubmissions subs attempt delay = ⟨1, []⟩ := by
  rw [pollSubmissions]
  have h3 : ¬ attempt ≥ maxFetchLimit := by omega
  simp [h3, h2]

/-- The delays scheduled by the submission-list polling hook double at each
step: the j-th scheduled timer is `delay * 2 ^ (j + 1)`. -/
theorem pollSubmissions_delays (subs : Nat → List Submission)
    (attempt delay : Nat) :
    ∃ n, (pollSubmissions subs attempt delay).delays =
      (List.range n).map (fun j => delay * 2 ^ (j + 1)) := by
  induction attempt, delay using pollSubmissions.induct subs with
  | case1 a d h => exact ⟨0, by rw [pollSubmissions]; simp [h]⟩
  | case2 a d h hall => exact ⟨0, by rw [pollSubmissions]; simp [h, hall]⟩
  | case3 a d h hall ih =>
    obtain ⟨n, hn⟩ := ih
    refine ⟨n + 1, ?_⟩
    rw [pollSubmissions]
    simp only [h, hall]
    simp [hn, List.range_succ_eq_map, List.map_map, Function.comp]
    intro j _
    ring

/-- `getItem` after `setItem` of the same key yields the set value. -/
theorem getItem_setItem_self (st : Store) (k v : String) :
    getItem (setItem st k v) k = some v := by
  simp [getItem, setItem]

/-- `removeItem` removes the key. -/
theorem getItem_removeItem_self (st : Store) (k : String) :
    getItem (removeItem st k) k = none := by
  induction st with
  | nil => rfl
  | cons kv tl ih =>
    by_cases h : kv.1 = k
    · simp only [removeItem, h, if_true]
      exact ih
    · simp only [removeItem, h, if_false, getItem]
      exact ih

/-- `removeItem` leaves other keys alone. -/
theorem getItem_removeItem_other (st : Store) (k k2 : String) (h : k2 ≠ k) :
    getItem (removeItem st k) k2 = getItem st k2 := by
  induction st with
  | nil => rfl
  | cons kv tl ih =>
    by_cases hk : kv.1 = k
    · simp only [removeItem, hk, if_true, getItem]
      rw [if_neg (show ¬ k = k2 from fun he => h he.symm)]
      exact ih
    · simp only [removeItem, hk, if_false, getItem]
      by_cases he : kv.1 = k2
      · rw [if_pos he, if_pos he]
      · rw [if_neg he, if_neg he]
        exact ih

/-- After the refresh-failure cleanup, none of the four auth keys is stored. -/
theorem clearAuthKeys_getItem (ls : Store) :
    getItem (clearAuthKeys ls) ("access_token") = none ∧
    getItem (clearAuthKeys ls) ("refresh_token") = none ∧
    getItem (clearAuthKeys ls) ("role") = none ∧
    getItem (clearAuthKeys ls) ("username") = none := by
  unfold clearAuthKeys
  refine ⟨?_, ?_, ?_, ?_⟩
  · rw [getItem_removeItem_other _ _ _ (by simp),
      getItem_removeItem_other _ _ _ (by simp),
      getItem_removeItem_other _ _ _ (by simp)]
    exact getItem_removeItem_self _ _
  · rw [getItem_removeItem_other _ _ _ (by simp),
      getItem_removeItem_other _ _ _ (by simp)]
    exact getItem_removeItem_self _ _
  · rw [getItem_removeItem_other _ _ _ (by simp)]
    exact getItem_removeItem_self _ _
  · exact getItem_removeItem_self _ _

/-- If the Completion Evaluator keeps answering `next` up to step `k` and
answers `success` at step `k` inside the budget, the loop started at any index
at most `k` exits with status completed and final step index `k + 1`. -/
theorem runLoop_success_at (verdict : Nat → Verdict) (stepBudget k : Nat)
    (hk : k < stepBudget) (hsucc : verdict k = Verdict.success) :
    ∀ i, i ≤ k → (∀ j, i ≤ j → j < k → verdict j = Verdict.next) →
      runLoop verdict stepBudget i = ⟨RunStatus.completed, true, k + 1⟩ := by
  intro i
  induction i using runLoop.induct verdict stepBudget with
  | case1 a heq =>
    intro hik hbefore
    rcases Nat.lt_or_ge a k with hlt | hge
    · rw [hbefore a le_rfl hlt] at heq; cases heq
    · have hek : a = k := le_antisymm hik hge
      subst hek
      rw [runLoop, heq]
  | case2 a heq =>
    intro hik hbefore
    rcases Nat.lt_or_ge a k with hlt | hge
    · rw [hbefore a le_rfl hlt] at heq; cases heq
    · have hek : a = k := le_antisymm hik hge
      subst hek
      rw [hsucc] at heq; cases heq
  | case3 a heq hge =>
    intro hik hbefore
    rcases Nat.lt_or_ge a k with hlt | hge2
    · omega
    · have hek : a = k := le_antisymm hik hge2
      subst hek
      rw [hsucc] at heq; cases heq
  | case4 a heq hge ih =>
    intro hik hbefore
    have hne : a ≠ k := by
      intro hek; subst hek; rw [hsucc] at heq; cases heq
    have hlt : a < k := lt_of_le_of_ne hik hne
    rw [runLoop]
    simp only [heq, hge, dite_false]
    exact ih (by omega) (fun j hj hjk => hbefore j (by omega) hjk)

/-- Unfolding of `runBenchmark` when both an agent and a task are selected. -/
theorem runBenchmark_some_some (agent : Agent) (task : Task) (mockMode : JsVal)
    (key : String) (post : BenchmarkBody → PostResp) (resp : Nat → PollResp) :
    runBenchmark (some agent) (some task) mockMode key post resp =
      if needsApiKey agent.configType mockMode key then ⟨[], false, true⟩
      else
        match post ⟨agent.id, task.id, ⟨key⟩⟩ with
        | .httpErr => ⟨[⟨agent.id, task.id, ⟨key⟩⟩], false, false⟩
        | .ok sub =>
          if sub.status = "pending" ∨ sub.status = "processing" then
            ⟨[⟨agent.id, task.id, ⟨key⟩⟩], (pollSubmissionStatus resp).isRunning,
             false⟩
          else ⟨[⟨agent.id, task.id, ⟨key⟩⟩], true, false⟩ := rfl

/-- Unfolding of the response interceptor in the 401-with-no-retry-flag
case. -/
theorem interceptor_401_unfold (err : HttpError) (ls : Store)
    (refresh : String → RefreshOutcome) (h401 : err.status = some 401)
    (hflag : err.config.retryFlag = false) :
    responseInterceptorOnError err ls refresh =
      match getItem ls ("refresh_token") with
      | none => ⟨InterceptorAction.rejectRefreshError, clearAuthKeys ls,
          some ("/login")⟩
      | some rt =>
        match refresh rt with
        | .ok tok => ⟨InterceptorAction.retryOriginal
            ⟨true, some (String.append ("Bearer ") tok)⟩,
            setItem ls ("access_token") tok, none⟩
        | .refreshFailed => ⟨InterceptorAction.rejectRefreshError,
            clearAuthKeys ls, some ("/login")⟩ := by
  unfold responseInterceptorOnError
  rw [if_pos ⟨h401, hflag⟩]

/-- `toFixed1` is monotone. -/
theorem toFixed1_mono {x y : ℚ} (h : x ≤ y) : toFixed1 x ≤ toFixed1 y := by
  unfold toFixed1
  have h10 : (10 : ℚ) * x ≤ 10 * y := by nlinarith
  have hr : round ((10 : ℚ) * x) ≤ round ((10 : ℚ) * y) := by
    rw [round_eq, round_eq]
    exact Int.floor_le_floor (by linarith)
  have : ((round ((10 : ℚ) * x) : ℤ) : ℚ) ≤ ((round ((10 : ℚ) * y) : ℤ) : ℚ) := by
    exact_mod_cast hr
  linarith

/-! ### Claim theorems -/

/-- C1: the claim asserts that a health-probe response with mock_mode false
makes the derived mockMode flag false, enforcing the real-path API-key
requirement.  The code contradicts this: `healthResponse.data.mock_mode ||
true` is truthy for every response body, so for the probe response
`{mock_mode: false}` the derived flag is still `true` and the API-key gate of
`runBenchmark` evaluates to false (the key requirement is never enforced). -/
theorem c1_mock_mode_flag_always_true :
    (∀ health : JsVal, jsTruthy (playgroundDerivedMockMode health) = true) ∧
    playgroundDerivedMockMode (JsVal.obj [(("mock_mode"), JsVal.bool false)]) =
      JsVal.bool true ∧
    needsApiKey ("real")
      (playgroundDerivedMockMode (JsVal.obj [(("mock_mode"), JsVal.bool false)]))
      ("") = false := by
  refine ⟨fun health => jsTruthy_jsOr_true _, rfl, rfl⟩

/-- C5: a failed health probe is never fatal: both health-check callers are
total functions of the probe outcome; on a thrown probe error they install
the unhealthy defaults (mock mode on, no supported providers, status
"error"), and no HTTP request beyond the one probe is ever issued. -/
theorem c5_probe_failure_not_fatal :
    (∀ e : String,
      phcCheckPlaygroundHealth (Except.error e) =
        (⟨JsVal.bool false, JsVal.bool false, JsVal.str ("error"), JsVal.undefined,
          JsVal.bool true, JsVal.bool false, JsVal.undefined, JsVal.undefined⟩,
         [("GET /playground/health")]) ∧
      createAgentCheckPlaygroundHealth (Except.error e) =
        ((JsVal.arr [], JsVal.bool true), [("GET /playground/health")])) ∧
    (∀ probe : ProbeOutcome,
      (phcCheckPlaygroundHealth probe).2 = [("GET /playground/health")] ∧
      (createAgentCheckPlaygroundHealth probe).2 = [("GET /playground/health")]) := by
  refine ⟨fun e => ⟨rfl, rfl⟩, fun probe => ?_⟩
  cases probe with
  | ok data => exact ⟨rfl, rfl⟩
  | error e => exact ⟨rfl, rfl⟩

/-- C7: accuracy is a 0-1 ratio throughout: the progress-bar width is exactly
100 times the accuracy and lies in [0, 100] for accuracy in [0, 1], the
displayed percentage is 100 times the accuracy formatted to one decimal
place, and both renderings are monotone in the underlying accuracy. -/
theorem c7_accuracy_rendering (a a1 a2 : ℚ) (h0 : 0 ≤ a) (h1 : a ≤ 1)
    (h12 : a1 ≤ a2) :
    accuracyBarWidth a = 100 * a ∧
    0 ≤ accuracyBarWidth a ∧ accuracyBarWidth a ≤ 100 ∧
    leaderboardAccuracyCell a1 = toFixed1 (100 * a1) ∧
    leaderboardAccuracyCell a1 ≤ leaderboardAccuracyCell a2 ∧
    accuracyBarWidth a1 ≤ accuracyBarWidth a2 := by
  refine ⟨by unfold accuracyBarWidth; ring, ?_, ?_, ?_, ?_, ?_⟩
  · unfold accuracyBarWidth; nlinarith
  · unfold accuracyBarWidth; nlinarith
  · unfold leaderboardAccuracyCell; rw [mul_comm]
  · unfold leaderboardAccuracyCell
    exact toFixed1_mono (by nlinarith)
  · unfold accuracyBarWidth; nlinarith

/-- Witness for C7 at accuracy 1/2 and the ordered pair 1/4 ≤ 3/4. -/
theorem c7_witness :
    (0 : ℚ) ≤ 1 / 2 ∧ (1 : ℚ) / 2 ≤ 1 ∧ (1 : ℚ) / 4 ≤ 3 / 4 ∧
    (accuracyBarWidth (1 / 2) = 100 * (1 / 2) ∧
     0 ≤ accuracyBarWidth (1 / 2) ∧ accuracyBarWidth (1 / 2) ≤ 100 ∧
     leaderboardAccuracyCell (1 / 4) = toFixed1 (100 * (1 / 4)) ∧
     leaderboardAccuracyCell (1 / 4) ≤ leaderboardAccuracyCell (3 / 4) ∧
     accuracyBarWidth (1 / 4) ≤ accuracyBarWidth (3 / 4)) :=
  ⟨by norm_num, by norm_num, by norm_num,
   c7_accuracy_rendering (1 / 2) (1 / 4) (3 / 4) (by norm_num) (by norm_num)
     (by norm_num)⟩

/-- C10 counterexample: a GET /agents response body whose `agents` field is a
truthy non-array (here the string "x") flows through `Playground.fetchData`
unchecked, so the agents state is not an array, contrary to the claim that
non-array payloads are always replaced by the empty array. -/
theorem c10_counterexample :
    isArray (playgroundAgentsData (JsVal.obj [(("agents"), JsVal.str ("x"))])) =
      false := by
  rfl

/-- C10 (amended): the agents state of `Agents.fetchAgents` and
`DisplayAgents.fetchAgents` is an array for every response body; the agents
value computed by `Playground.fetchData` is an array provided each of
`data.agents` and `data.items` is an array whenever it is truthy (a truthy
non-array payload passes through unchecked there). -/
theorem c10_agents_state_array (data : JsVal) :
    isArray (agentsStateAfterFetch data) = true ∧
    isArray (displayAgentsStateAfterFetch data) = true ∧
    ((jsTruthy (jsGet data ("agents")) = true →
        isArray (jsGet data ("agents")) = true) →
      (jsTruthy (jsGet data ("items")) = true →
        isArray (jsGet data ("items")) = true) →
      isArray (playgroundAgentsData data) = true) := by
  refine ⟨?_, ?_, ?_⟩
  · unfold agentsStateAfterFetch
    by_cases h : isArray (jsCoalesce (jsOptGet data ("items")) (JsVal.arr [])) = true
    · rw [if_pos h]; exact h
    · rw [if_neg h]; rfl
  · unfold displayAgentsStateAfterFetch
    by_cases h : isArray data = true
    · rw [if_pos h]; exact h
    · rw [if_neg h]
      by_cases h2 : (jsTruthy (jsOptGet data ("items")) &&
          isArray (jsOptGet data ("items"))) = true
      · rw [if_pos h2]
        have h3 := h2
        simp only [Bool.and_eq_true] at h3
        exact h3.2
      · rw [if_neg h2]; rfl
  · intro hagents hitems
    unfold playgroundAgentsData jsOr
    by_cases ha : jsTruthy (jsGet data ("agents")) = true
    · rw [if_pos ha]; exact hagents ha
    · rw [if_neg ha]
      by_cases hi : jsTruthy (jsGet data ("items")) = true
      · rw [if_pos hi]; exact hitems hi
      · rw [if_neg hi]; rfl

/-- Witness for C10 at a response body whose `agents` field is an array. -/
theorem c10_witness :
    isArray (playgroundAgentsData (JsVal.obj [(("agents"), JsVal.arr [])])) =
      true :=
  (c10_agents_state_array (JsVal.obj [(("agents"), JsVal.arr [])])).2.2
    (by decide) (by decide)

/-- C3 counterexample: a run whose polled status is the terminal value
"cancelled" on every poll.  The polling loop only recognises "completed" and
"failed", so it delivers zero results (the claim requires exactly one for
each of the four terminal statuses). -/
theorem c3_counterexample :
    (pollSubmissionStatus (fun _ => PollResp.ok ⟨("s1"), ("cancelled")⟩)).delivered =
      [] := by
  show (checkStatus (fun _ => PollResp.ok ⟨("s1"), ("cancelled")⟩) 0).delivered = []
  refine checkStatus_never_terminal _ 0 (fun j hj s hs => ?_)
  injection hs with h2
  subst h2
  decide

/-- C3 (amended): the polling loop sets the result at most once, and only
with a submission whose status is "completed" or "failed"; when the first
terminal status polled within the 30-attempt window is "completed" or
"failed", exactly one result is delivered; when the polled status is never
"completed" or "failed" (in particular when it is always "timed_out" or
"cancelled"), zero results are delivered. -/
theorem c3_polling_delivery :
    (∀ (resp : Nat → PollResp) (attempts : Nat),
      (checkStatus resp attempts).delivered.length ≤ 1 ∧
      ∀ sub ∈ (checkStatus resp attempts).delivered,
        sub.status = "completed" ∨ sub.status = "failed") ∧
    (∀ (resp : Nat → PollResp) (k : Nat) (sub : Submission),
      k < maxPollAttempts → resp k = PollResp.ok sub →
      (sub.status = "completed" ∨ sub.status = "failed") →
      (∀ j, j < k → ∃ s, resp j = PollResp.ok s ∧
        ¬(s.status = "completed" ∨ s.status = "failed")) →
      (pollSubmissionStatus resp).delivered = [sub]) ∧
    (∀ resp : Nat → PollResp,
      (∀ j s, resp j = PollResp.ok s →
        ¬(s.status = "completed" ∨ s.status = "failed")) →
      (pollSubmissionStatus resp).delivered = []) := by
  refine ⟨fun resp attempts => ⟨checkStatus_delivered_length resp attempts,
    checkStatus_delivered_status resp attempts⟩, ?_, ?_⟩
  · intro resp k sub hk hresp hterm hbefore
    show (checkStatus resp 0).delivered = [sub]
    exact checkStatus_first_terminal resp k sub hk hresp hterm 0 (Nat.zero_le k)
      (fun j _ hjk => hbefore j hjk)
  · intro resp hnone
    show (checkStatus resp 0).delivered = []
    exact checkStatus_never_terminal resp 0 (fun j _ s hs => hnone j s hs)

/-- Witness for C3: a run polled as "processing" once and then "completed"
delivers exactly that completed submission. -/
theorem c3_witness :
    (pollSubmissionStatus (fun n => if n = 0
        then PollResp.ok ⟨("s1"), ("processing")⟩
        else PollResp.ok ⟨("s1"), ("completed")⟩)).delivered =
      [⟨("s1"), ("completed")⟩] :=
  c3_polling_delivery.2.1
    (fun n => if n = 0 then PollResp.ok ⟨("s1"), ("processing")⟩
      else PollResp.ok ⟨("s1"), ("completed")⟩)
    1 ⟨("s1"), ("completed")⟩ (by decide) (by decide) (by decide)
    (fun j hj => by
      interval_cases j
      exact ⟨⟨("s1"), ("processing")⟩, rfl, by decide⟩)

/-- C4: both caller-boundary polling loops terminate with a bounded attempt
count: the submission-list hook issues at most 5 fetches, stops as soon as
every fetched submission is "FAILED" or "COMPLETED", and its scheduled delays
double starting from 1000 ms; the playground poller issues at most 30 polls,
stops as soon as the polled status is "completed" or "failed", and every
timer it schedules is the 2000 ms re-poll delay. -/
theorem c4_polling_bounded :
    (∀ subs : Nat → List Submission,
      (useFetchSubmissionsPolling subs).fetches ≤ maxFetchLimit) ∧
    (∀ subs : Nat → List Submission, ∃ n,
      (useFetchSubmissionsPolling subs).delays =
        (List.range n).map (fun j => 1000 * 2 ^ (j + 1))) ∧
    (∀ (subs : Nat → List Submission) (attempt delay : Nat),
      attempt < maxFetchLimit → allCompleted (subs attempt) = true →
      pollSubmissions subs attempt delay = ⟨1, []⟩) ∧
    (∀ resp : Nat → PollResp,
      (pollSubmissionStatus resp).polls ≤ maxPollAttempts) ∧
    (∀ (resp : Nat → PollResp) (attempts : Nat) (sub : Submission),
      attempts < maxPollAttempts → resp attempts = PollResp.ok sub →
      (sub.status = "completed" ∨ sub.status = "failed") →
      checkStatus resp attempts = ⟨[sub], false, 1, []⟩) ∧
    (∀ resp : Nat → PollResp, ∀ d ∈ (pollSubmissionStatus resp).delays,
      d = 2000) := by
  refine ⟨?_, ?_, pollSubmissions_stop, ?_, checkStatus_stop_terminal, ?_⟩
  · intro subs
    have := pollSubmissions_fetches_le subs 0 1000
    simpa using this
  · intro subs
    exact pollSubmissions_delays subs 0 1000
  · intro resp
    show (checkStatus resp 0).polls ≤ maxPollAttempts
    have := checkStatus_polls_le resp 0
    simpa using this
  · intro resp d hd
    have hd2 : d ∈ 2000 :: (checkStatus resp 0).delays := hd
    rcases List.mem_cons.mp hd2 with h | h
    · exact h
    · exact checkStatus_delays_const resp 0 d h

/-- Witness for C4: a first poll that immediately returns "completed" stops
the loop with a single poll. -/
theorem c4_witness :
    checkStatus (fun _ => PollResp.ok ⟨("s1"), ("completed")⟩) 0 =
      ⟨[⟨("s1"), ("completed")⟩], false, 1, []⟩ :=
  c4_polling_bounded.2.2.2.2.1 (fun _ => PollResp.ok ⟨("s1"), ("completed")⟩) 0
    ⟨("s1"), ("completed")⟩ (by decide) rfl (by decide)

/-- C2 counterexample: after `handleApiKeySubmit` issues the run request, a
copy of the credential remains in sessionStorage under the key
`llm_api_key_a1`, refuting the claim that no copy remains in browser storage
once the run request is issued. -/
theorem c2_counterexample :
    ((handleApiKeySubmit ("sk-test") (some ⟨("a1"), ("real")⟩) (some ⟨("t1")⟩)
        (JsVal.bool true) ⟨[], []⟩
        (fun _ => PostResp.ok ⟨("s1"), ("completed")⟩)
        (fun _ => PollResp.httpErr)).2.posted =
      [⟨("a1"), ("t1"), ⟨("sk-test")⟩⟩]) ∧
    getItem (handleApiKeySubmit ("sk-test") (some ⟨("a1"), ("real")⟩)
        (some ⟨("t1")⟩) (JsVal.bool true) ⟨[], []⟩
        (fun _ => PostResp.ok ⟨("s1"), ("completed")⟩)
        (fun _ => PollResp.httpErr)).1.sessionStorage ("llm_api_key_a1") =
      some ("sk-test") := by
  exact ⟨by decide, by decide⟩

/-- C2 (amended): the credential is sent only as `run_config.llm_api_key` of
the single POST /submissions body and is never written to localStorage; but a
copy is deliberately kept in sessionStorage under `llm_api_key_` + the agent
id (by `handleApiKeySubmit`, and likewise by `CreateAgent.onFormSubmit`), and
that copy persists after the run request is issued. -/
theorem c2_credential_flow (key : String) (agent : Agent) (task : Task)
    (mockMode : JsVal) (browser : BrowserState) (post : BenchmarkBody → PostResp)
    (resp : Nat → PollResp) (hkey : jsTrim key ≠ "") :
    (handleApiKeySubmit key (some agent) (some task) mockMode browser post
        resp).1.localStorage = browser.localStorage ∧
    (handleApiKeySubmit key (some agent) (some task) mockMode browser post
        resp).1.sessionStorage =
      setItem browser.sessionStorage (String.append ("llm_api_key_") agent.id) key ∧
    (needsApiKey agent.configType mockMode key = false →
      (handleApiKeySubmit key (some agent) (some task) mockMode browser post
          resp).2.posted = [⟨agent.id, task.id, ⟨key⟩⟩]) ∧
    (∀ (configType : String) (agentPost : Except Unit String) (b2 : BrowserState),
      (onFormSubmitStoredKey key configType agentPost b2).localStorage =
        b2.localStorage) := by
  refine ⟨?_, ?_, ?_, ?_⟩
  · unfold handleApiKeySubmit
    rw [if_neg hkey]
  · unfold handleApiKeySubmit
    rw [if_neg hkey]
  · intro hneed
    unfold handleApiKeySubmit
    rw [if_neg hkey]
    show (runBenchmark (some agent) (some task) mockMode key post resp).posted = _
    rw [runBenchmark_some_some, if_neg (by simp [hneed])]
    cases hp : post ⟨agent.id, task.id, ⟨key⟩⟩ with
    | ok sub =>
      by_cases hs : sub.status = "pending" ∨ sub.status = "processing"
      · simp [hs]
      · simp [hs]
    | httpErr => rfl
  · intro configType agentPost b2
    unfold onFormSubmitStoredKey
    split
    · split
      · rfl
      · rfl
    · rfl

/-- Witness for C2 at a non-blank key and a real agent. -/
theorem c2_witness :
    jsTrim ("sk-test") ≠ "" ∧
    (handleApiKeySubmit ("sk-test") (some ⟨("a1"), ("real")⟩) (some ⟨("t1")⟩)
        (JsVal.bool true) ⟨[], []⟩ (fun _ => PostResp.httpErr)
        (fun _ => PollResp.httpErr)).1.sessionStorage =
      setItem [] (String.append ("llm_api_key_") ("a1")) ("sk-test") :=
  ⟨by decide,
   (c2_credential_flow ("sk-test") ⟨("a1"), ("real")⟩ ⟨("t1")⟩ (JsVal.bool true)
      ⟨[], []⟩ (fun _ => PostResp.httpErr) (fun _ => PollResp.httpErr)
      (by decide)).2.1⟩

/-- C6: success wins the budget tie-break.  Modelled from the spec (the
orchestrator is not among the client sources): when the Completion Evaluator
answers `next` up to step k and `success` at step k, and the step budget is
exhausted on that same iteration (k + 1 = budget), the run outcome has status
completed - not timed_out - with all budgeted steps taken. -/
theorem c6_success_wins_tie_break (verdict : Nat → Verdict) (stepBudget k : Nat)
    (hbefore : ∀ j, j < k → verdict j = Verdict.next)
    (hsucc : verdict k = Verdict.success)
    (hbudget : k + 1 = stepBudget) :
    runOrchestrator verdict stepBudget =
      ⟨RunStatus.completed, true, stepBudget⟩ := by
  unfold runOrchestrator
  have hres := runLoop_success_at verdict stepBudget k (by omega) hsucc 0
    (Nat.zero_le k) (fun j _ hj => hbefore j hj)
  rw [hres, hbudget]

/-- Witness for C6: budget 3, evaluator success exactly at step 2 (the last
allowed step): the outcome is completed with 3 steps taken. -/
theorem c6_witness :
    runOrchestrator (fun j => if j = 2 then Verdict.success else Verdict.next) 3 =
      ⟨RunStatus.completed, true, 3⟩ :=
  c6_success_wins_tie_break
    (fun j => if j = 2 then Verdict.success else Verdict.next) 3 2
    (by decide) (by decide) rfl

/-- C8 counterexample: a successful initial POST /submissions response whose
status is neither "pending" nor "processing" (here "completed") schedules no
polling and leaves `isRunning` true, refuting the claim that the flag is
reset on that exit path. -/
theorem c8_counterexample :
    ((runBenchmark (some ⟨("a1"), ("mock")⟩) (some ⟨("t1")⟩) (JsVal.bool true)
        ("") (fun _ => PostResp.ok ⟨("s1"), ("completed")⟩)
        (fun _ => PollResp.httpErr)).isRunning = true) ∧
    ((runBenchmark (some ⟨("a1"), ("mock")⟩) (some ⟨("t1")⟩) (JsVal.bool true)
        ("") (fun _ => PostResp.ok ⟨("s1"), ("completed")⟩)
        (fun _ => PollResp.httpErr)).posted =
      [⟨("a1"), ("t1"), ⟨("")⟩⟩]) := by
  exact ⟨by decide, by decide⟩

/-- C8 (amended): past the guards, `runBenchmark` resets `isRunning` on the
request-error path and on every polling path (terminal status, polling
error, attempt exhaustion - the polling loop always leaves the flag false);
the flag stays true exactly on the path where the initial response status is
neither "pending" nor "processing", where no polling is scheduled. -/
theorem c8_isRunning_reset (agent : Agent) (task : Task) (mockMode : JsVal)
    (key : String) (post : BenchmarkBody → PostResp) (resp : Nat → PollResp)
    (hneed : needsApiKey agent.configType mockMode key = false) :
    (post ⟨agent.id, task.id, ⟨key⟩⟩ = PostResp.httpErr →
      (runBenchmark (some agent) (some task) mockMode key post resp).isRunning =
        false) ∧
    (∀ sub, post ⟨agent.id, task.id, ⟨key⟩⟩ = PostResp.ok sub →
      (sub.status = "pending" ∨ sub.status = "processing") →
      (runBenchmark (some agent) (some task) mockMode key post resp).isRunning =
        false) ∧
    (∀ sub, post ⟨agent.id, task.id, ⟨key⟩⟩ = PostResp.ok sub →
      ¬(sub.status = "pending" ∨ sub.status = "processing") →
      (runBenchmark (some agent) (some task) mockMode key post resp).isRunning =
        true) := by
  refine ⟨?_, ?_, ?_⟩
  · intro hpost
    rw [runBenchmark_some_some, if_neg (by simp [hneed]), hpost]
  · intro sub hpost hstat
    rw [runBenchmark_some_some, if_neg (by simp [hneed]), hpost]
    simp only [hstat, if_true]
    show (pollSubmissionStatus resp).isRunning = false
    exact checkStatus_isRunning resp 0
  · intro sub hpost hstat
    rw [runBenchmark_some_some, if_neg (by simp [hneed]), hpost]
    simp [hstat]

/-- Witness for C8: the request-error path resets the flag. -/
theorem c8_witness :
    (runBenchmark (some ⟨("a1"), ("mock")⟩) (some ⟨("t1")⟩) (JsVal.bool true)
        ("") (fun _ => PostResp.httpErr) (fun _ => PollResp.httpErr)).isRunning =
      false :=
  (c8_isRunning_reset ⟨("a1"), ("mock")⟩ ⟨("t1")⟩ (JsVal.bool true) ("")
      (fun _ => PostResp.httpErr) (fun _ => PollResp.httpErr) (by decide)).1 rfl

/-- C9: on a 401 response the interceptor retries the original request at
most once: a request already carrying the `_retry` flag is rejected with no
retry, a first 401 with a successful refresh is retried exactly once with the
new bearer token and the `_retry` flag set, and when the refresh fails the
four auth keys are removed from localStorage, the browser is redirected to
/login, and the refresh error is propagated as the rejection. -/
theorem c9_interceptor_refresh (err : HttpError) (ls : Store)
    (refresh : String → RefreshOutcome) :
    (err.config.retryFlag = true →
      responseInterceptorOnError err ls refresh =
        ⟨InterceptorAction.rejectOriginal, ls, none⟩) ∧
    (err.status = some 401 → err.config.retryFlag = false →
      ∀ rt tok, getItem ls ("refresh_token") = some rt →
        refresh rt = RefreshOutcome.ok tok →
        responseInterceptorOnError err ls refresh =
          ⟨InterceptorAction.retryOriginal
            ⟨true, some (String.append ("Bearer ") tok)⟩,
           setItem ls ("access_token") tok, none⟩) ∧
    (err.status = some 401 → err.config.retryFlag = false →
      (∀ rt, getItem ls ("refresh_token") = some rt →
        refresh rt = RefreshOutcome.refreshFailed) →
      (responseInterceptorOnError err ls refresh).action =
        InterceptorAction.rejectRefreshError ∧
      (responseInterceptorOnError err ls refresh).redirect = some ("/login") ∧
      getItem (responseInterceptorOnError err ls refresh).localStorage
        ("access_token") = none ∧
      getItem (responseInterceptorOnError err ls refresh).localStorage
        ("refresh_token") = none ∧
      getItem (responseInterceptorOnError err ls refresh).localStorage
        ("role") = none ∧
      getItem (responseInterceptorOnError err ls refresh).localStorage
        ("username") = none) := by
  refine ⟨?_, ?_, ?_⟩
  · intro hflag
    unfold responseInterceptorOnError
    rw [if_neg (by simp [hflag])]
  · intro h401 hflag rt tok hrt hrefresh
    rw [interceptor_401_unfold err ls refresh h401 hflag, hrt]
    simp [hrefresh]
  · intro h401 hflag hfail
    rw [interceptor_401_unfold err ls refresh h401 hflag]
    cases hrt : getItem ls ("refresh_token") with
    | none =>
      exact ⟨rfl, rfl, (clearAuthKeys_getItem ls).1, (clearAuthKeys_getItem ls).2.1,
        (clearAuthKeys_getItem ls).2.2.1, (clearAuthKeys_getItem ls).2.2.2⟩
    | some rt =>
      simp only [hfail rt hrt]
      exact ⟨trivial, trivial, (clearAuthKeys_getItem ls).1,
        (clearAuthKeys_getItem ls).2.1, (clearAuthKeys_getItem ls).2.2.1,
        (clearAuthKeys_getItem ls).2.2.2⟩

/-- Witness for C9: a first 401 with a stored refresh token and a successful
refresh is retried with the new bearer token. -/
theorem c9_witness :
    responseInterceptorOnError ⟨some 401, ⟨false, none⟩⟩
        [(("refresh_token"), ("rt0"))] (fun _ => RefreshOutcome.ok ("tok1")) =
      ⟨InterceptorAction.retryOriginal
        ⟨true, some (String.append ("Bearer ") ("tok1"))⟩,
       setItem [(("refresh_token"), ("rt0"))] ("access_token") ("tok1"), none⟩ :=
  (c9_interceptor_refresh ⟨some 401, ⟨false, none⟩⟩ [(("refresh_token"), ("rt0"))]
      (fun _ => RefreshOutcome.ok ("tok1"))).2.1 rfl rfl ("rt0") ("tok1")
    (by decide) rfl

end AgentArena
